import Mathlib

/-!
# LED registry and HTTP handlers of the ESP32 LED controller (`LED_IOT.cpp`)

A shallow embedding of the channel table `ledStates`, the pin table `LED_PINS`,
the control operations (`turnOnLED`, `turnOffLED`, `turnOnAllLEDs`,
`turnOffAllLEDs`), the registry part of `setup`, and the three API handlers
(`handleGetStatus`, `handleLEDControl`, `handleAllLEDs`).

The global variables of the sketch become an explicit `State` that every
operation takes and returns. The PWM peripheral is a log of the `ledcWrite`
calls, oldest first. Wi-Fi, the HTTP server, the JSON library and the serial
log are collaborators outside the sketch: a handler here starts from what the
server and the JSON document hand to it and ends with what it passes to
`server.send`.
-/

namespace LedIot

/-! ## Data model -/

/-- `const int LED_PINS[] = {2, 4, 5, 18, 19, 21, 22, 23};` -/
def LED_PINS : List Int := [2, 4, 5, 18, 19, 21, 22, 23]

/-- `const int NUM_LEDS = sizeof(LED_PINS) / sizeof(LED_PINS[0]);` -/
def NUM_LEDS : Nat := LED_PINS.length

/-- Modelled from the spec: the declaration of `struct LEDState` in the source
lists `isOn` only, while `setup` and the control functions also assign
`brightness`, `blinkInterval`, `lastBlinkTime` and `blinkState`. The fields
here are exactly those five; `brightness` is the byte of the data model, the
two timing fields are unsigned counters. -/
structure LEDState where
  isOn : Bool
  brightness : Nat
  blinkInterval : Nat
  lastBlinkTime : Nat
  blinkState : Bool
  deriving DecidableEq, Repr

/-- One call `ledcWrite(pin, duty)`. -/
structure HwWrite where
  pin : Int
  duty : Nat
  deriving DecidableEq, Repr

/-- The mutable globals of the sketch together with the trace of hardware
writes: `LEDState ledStates[8];` is a table indexed by `Fin 8`, and `writes`
lists the `ledcWrite` calls made so far, oldest first. -/
structure State where
  ledStates : Fin 8 → LEDState
  writes : List HwWrite

/-- `LED_PINS[i]` for an index inside the state table. -/
def pinAt (i : Fin 8) : Int := LED_PINS.get ⟨i.val, i.isLt⟩

/-- The table slot addressed by a C `int` that passed the range test
`ledNum >= 0 && ledNum < NUM_LEDS`. -/
def slot (ledNum : Int) (h : 0 ≤ ledNum ∧ ledNum < (NUM_LEDS : Int)) : Fin 8 :=
  ⟨ledNum.toNat, by
    have h2 : ledNum < 8 := h.2
    have h1 := h.1
    omega⟩

/-! ## Primitive statements -/

/-- `ledStates[i].isOn = b;` -/
def setIsOn (i : Fin 8) (b : Bool) (s : State) : State :=
  { s with ledStates := Function.update s.ledStates i { s.ledStates i with isOn := b } }

/-- `ledStates[i].brightness = v;` -/
def setBrightness (i : Fin 8) (v : Nat) (s : State) : State :=
  { s with ledStates := Function.update s.ledStates i { s.ledStates i with brightness := v } }

/-- `ledStates[i].blinkInterval = v;` -/
def setBlinkInterval (i : Fin 8) (v : Nat) (s : State) : State :=
  { s with ledStates := Function.update s.ledStates i { s.ledStates i with blinkInterval := v } }

/-- `ledStates[i].lastBlinkTime = v;` -/
def setLastBlinkTime (i : Fin 8) (v : Nat) (s : State) : State :=
  { s with ledStates := Function.update s.ledStates i { s.ledStates i with lastBlinkTime := v } }

/-- `ledStates[i].blinkState = b;` -/
def setBlinkState (i : Fin 8) (b : Bool) (s : State) : State :=
  { s with ledStates := Function.update s.ledStates i { s.ledStates i with blinkState := b } }

/-- `ledcWrite(pin, duty);` appends one entry to the hardware trace. -/
def ledcWrite (pin : Int) (duty : Nat) (s : State) : State :=
  { s with writes := s.writes ++ [⟨pin, duty⟩] }

/-- `for (int i = start; i < NUM_LEDS; i++) body(i)` over an accumulator: the
loop test is the only exit, and the body receives the index as a slot of the
state table. -/
def forLEDs {α : Type} (body : Fin 8 → α → α) (start : Nat) (acc : α) : α :=
  if h : start < NUM_LEDS then forLEDs body (start + 1) (body ⟨start, h⟩ acc) else acc
termination_by NUM_LEDS - start

/-! ## Control operations -/

/-- `void turnOnLED(int ledNum)` -/
def turnOnLED (ledNum : Int) (s : State) : State :=
  if h : 0 ≤ ledNum ∧ ledNum < (NUM_LEDS : Int) then
    let s1 := setIsOn (slot ledNum h) true s
    let s2 := setBlinkInterval (slot ledNum h) 0 s1
    ledcWrite (pinAt (slot ledNum h)) (s2.ledStates (slot ledNum h)).brightness s2
  else s

/-- `void turnOffLED(int ledNum)` -/
def turnOffLED (ledNum : Int) (s : State) : State :=
  if h : 0 ≤ ledNum ∧ ledNum < (NUM_LEDS : Int) then
    let s1 := setIsOn (slot ledNum h) false s
    let s2 := setBlinkInterval (slot ledNum h) 0 s1
    ledcWrite (pinAt (slot ledNum h)) 0 s2
  else s

/-- `void turnOffAllLEDs()` -/
def turnOffAllLEDs (s : State) : State :=
  forLEDs (fun i st =>
    let s1 := setIsOn i false st
    let s2 := setBlinkInterval i 0 s1
    ledcWrite (pinAt i) 0 s2) 0 s

/-- `void turnOnAllLEDs()` -/
def turnOnAllLEDs (s : State) : State :=
  forLEDs (fun i st =>
    let s1 := setIsOn i true st
    let s2 := setBlinkInterval i 0 s1
    ledcWrite (pinAt i) (s2.ledStates i).brightness s2) 0 s

/-- The registry loop of `void setup()`: `pinMode` and `ledcAttach` configure
the pin and make no duty-cycle write; the Wi-Fi join and the server start that
follow the loop do not touch the table. -/
def setup (s : State) : State :=
  forLEDs (fun i st =>
    let s1 := setIsOn i false st
    let s2 := setBrightness i 255 s1
    let s3 := setBlinkInterval i 0 s2
    let s4 := setLastBlinkTime i 0 s3
    let s5 := setBlinkState i false s4
    ledcWrite (pinAt i) 0 s5) 0 s

/-! ## HTTP handlers -/

/-- A scalar stored in a JSON object of the status document. -/
inductive JsonValue where
  | bool (b : Bool)
  | num (n : Nat)
  deriving DecidableEq, Repr

/-- A JSON object as the list of its members, in insertion order. -/
abbrev JsonObject := List (String × JsonValue)

/-- The third argument of `server.send`: a literal string, or the serialised
document `{"leds": [...]}` given by the array under its `leds` key. -/
inductive Payload where
  | text (s : String)
  | leds (arr : List JsonObject)
  deriving DecidableEq, Repr

/-- One call `server.send(code, contentType, payload)`. -/
structure Response where
  code : Nat
  contentType : String
  payload : Payload
  deriving DecidableEq, Repr

/-- What `handleLEDControl` reads from the decoded body: `doc["led"]` as `int`,
`doc["action"]` as `String`, `doc["value"]` as `int`. -/
structure LedBody where
  led : Int
  action : String
  value : Int
  deriving DecidableEq, Repr

/-- What `handleAllLEDs` reads from the decoded body: `doc["action"]`. -/
structure AllBody where
  action : String
  deriving DecidableEq, Repr

/-- The entries of the `leds` array of a response, empty for a literal
payload. -/
def statusEntries (r : Response) : List JsonObject :=
  match r.payload with
  | Payload.leds arr => arr
  | Payload.text _ => []

/-- `void handleGetStatus()` -/
def handleGetStatus (s : State) : State × Response :=
  let ledsArray : List JsonObject :=
    forLEDs (fun i arr =>
      arr ++ [[("isOn", JsonValue.bool (s.ledStates i).isOn),
               ("blinkInterval", JsonValue.num (s.ledStates i).blinkInterval)]]) 0 []
  (s, ⟨200, "application/json", Payload.leds ledsArray⟩)

/-- `void handleLEDControl()`; the request is `none` when the server has no
`plain` argument (no body), otherwise the decoded body. -/
def handleLEDControl (req : Option LedBody) (s : State) : State × Response :=
  match req with
  | none => (s, ⟨400, "application/json", Payload.text "\x7b\"error\":\"No body\"\x7d"⟩)
  | some doc =>
    let ledIndex := doc.led
    let action := doc.action
    let _value := doc.value
    if ledIndex < 0 ∨ ledIndex ≥ (NUM_LEDS : Int) then
      (s, ⟨400, "application/json", Payload.text "\x7b\"error\":\"Invalid LED index\"\x7d"⟩)
    else
      let s1 :=
        if action = "on" then turnOnLED ledIndex s
        else if action = "off" then turnOffLED ledIndex s
        else s
      (s1, ⟨200, "application/json", Payload.text "\x7b\"success\":true\x7d"⟩)

/-- `void handleAllLEDs()`; the request is `none` when the server has no
`plain` argument (no body), otherwise the decoded body. -/
def handleAllLEDs (req : Option AllBody) (s : State) : State × Response :=
  match req with
  | none => (s, ⟨400, "application/json", Payload.text "\x7b\"error\":\"No body\"\x7d"⟩)
  | some doc =>
    let action := doc.action
    let s1 :=
      if action = "on" then turnOnAllLEDs s
      else if action = "off" then turnOffAllLEDs s
      else s
    (s1, ⟨200, "application/json", Payload.text "\x7b\"success\":true\x7d"⟩)

/-! ## Sample states -/

/-- A table with mixed flags, distinct brightness values and pending blink
data, with one earlier hardware write in the trace. -/
def sampleState : State :=
  ⟨fun i => ⟨i.val % 2 == 0, 10 * i.val + 5, 100 + i.val, 7, true⟩, [⟨2, 40⟩]⟩

/-! ## Hardware trace and reachable states -/

/-- The duty of the most recent `ledcWrite` to `pin` in a trace listed oldest
first, `none` when the pin was never written. -/
def lastWrite (pin : Int) : List HwWrite → Option Nat
  | [] => none
  | w :: ws =>
    match lastWrite pin ws with
    | some d => some d
    | none => if w.pin = pin then some w.duty else none

/-- The states the sketch can be in once `setup` has run: the state `setup`
leaves from any earlier contents of memory, closed under the four control
operations and the three API handlers with any input. -/
inductive Reachable : State → Prop where
  | boot (s0 : State) : Reachable (setup s0)
  | turnOn (ledNum : Int) {s : State} : Reachable s → Reachable (turnOnLED ledNum s)
  | turnOff (ledNum : Int) {s : State} : Reachable s → Reachable (turnOffLED ledNum s)
  | allOn {s : State} : Reachable s → Reachable (turnOnAllLEDs s)
  | allOff {s : State} : Reachable s → Reachable (turnOffAllLEDs s)
  | getStatus {s : State} : Reachable s → Reachable (handleGetStatus s).1
  | ledControl (req : Option LedBody) {s : State} :
      Reachable s → Reachable (handleLEDControl req s).1
  | allLEDs (req : Option AllBody) {s : State} :
      Reachable s → Reachable (handleAllLEDs req s).1

/-- The invariant carried by every reachable state: each channel keeps the
brightness 255 given by `setup`, and the last write to its pin is 255 when the
channel is on and 0 when it is off. -/
def WriteInv (s : State) : Prop :=
  ∀ i : Fin 8, (s.ledStates i).brightness = 255 ∧
    lastWrite (pinAt i) s.writes = some (if (s.ledStates i).isOn then 255 else 0)

/-! ## Channels of the data model and the operations on the registry -/

/-- The channel of the data model, as seen from outside: the output pin taken
from the constant table `LED_PINS`, and the flag and brightness held in the
slot of `ledStates`. -/
structure Channel where
  pin : Int
  isOn : Bool
  brightness : Nat
  deriving DecidableEq, Repr

/-- Channel `i` of the registry in state `s`. -/
def channel (s : State) (i : Fin 8) : Channel :=
  ⟨pinAt i, (s.ledStates i).isOn, (s.ledStates i).brightness⟩

/-- One call into the registry: the registry loop of `setup`, one of the four
control functions, or one of the three API handlers with its request. -/
inductive Operation where
  | boot
  | turnOn (ledNum : Int)
  | turnOff (ledNum : Int)
  | allOn
  | allOff
  | getStatus
  | ledControl (req : Option LedBody)
  | allLEDs (req : Option AllBody)
  deriving DecidableEq, Repr

/-- The state an operation leaves. -/
def Operation.run : Operation → State → State
  | Operation.boot, s => setup s
  | Operation.turnOn ledNum, s => turnOnLED ledNum s
  | Operation.turnOff ledNum, s => turnOffLED ledNum s
  | Operation.allOn, s => turnOnAllLEDs s
  | Operation.allOff, s => turnOffAllLEDs s
  | Operation.getStatus, s => (handleGetStatus s).1
  | Operation.ledControl req, s => (handleLEDControl req s).1
  | Operation.allLEDs req, s => (handleAllLEDs req s).1

/-! ## The single operation with its outcome -/

/-- The error of the registry operation `setOne` in the taxonomy of the
data model. -/
inductive SetOneError where
  | OutOfRange
  deriving DecidableEq, Repr

/-- `setOne(index, on)` as the sketch provides it: a call of
`turnOnLED(index)` when `turnOn` is set, of `turnOffLED(index)` otherwise. Both functions
are `void`, consist of one guarded block without an `else`, and return to the
caller on every path: every call completes and hands back no error. -/
def setOne (index : Int) (turnOn : Bool) (s : State) : Except SetOneError State :=
  Except.ok (if turnOn then turnOnLED index s else turnOffLED index s)

/-- `setOne(index, on)` in the words of the component design, for comparison
with `setOne`: it fails with `OutOfRange` if `index` is not in `[0, length)`;
otherwise it sets `isOn`, clears any pending timed behaviour, and issues one
hardware write of the brightness (turning on) or of 0 (turning off). -/
def setOneSpec (index : Int) (turnOn : Bool) (s : State) : Except SetOneError State :=
  if h : 0 ≤ index ∧ index < (NUM_LEDS : Int) then
    Except.ok
      ⟨Function.update s.ledStates (slot index h)
          { s.ledStates (slot index h) with isOn := turnOn, blinkInterval := 0 },
        s.writes ++
          [⟨pinAt (slot index h), if turnOn then (s.ledStates (slot index h)).brightness else 0⟩]⟩
  else Except.error SetOneError.OutOfRange

/-! ## Basic facts -/

theorem NUM_LEDS_eq : NUM_LEDS = 8 := rfl

theorem forLEDs_unroll {α : Type} (body : Fin 8 → α → α) (acc : α) :
    forLEDs body 0 acc =
      body 7 (body 6 (body 5 (body 4 (body 3 (body 2 (body 1 (body 0 acc))))))) := by
  have hn : NUM_LEDS = 8 := rfl
  unfold forLEDs; simp only [hn]
  unfold forLEDs; simp only [hn]
  unfold forLEDs; simp only [hn]
  unfold forLEDs; simp only [hn]
  unfold forLEDs; simp only [hn]
  unfold forLEDs; simp only [hn]
  unfold forLEDs; simp only [hn]
  unfold forLEDs; simp only [hn]
  unfold forLEDs; simp only [hn]
  simp


theorem State.eq_of_fields (a b : State) (h1 : a.ledStates = b.ledStates) (h2 : a.writes = b.writes) :
    a = b := by
  cases a; cases b; simp_all

/-- What `turnOnLED` does to the whole state when the range test passes. -/
theorem turnOnLED_valid (ledNum : Int) (h : 0 ≤ ledNum ∧ ledNum < (NUM_LEDS : Int)) (s : State) :
    turnOnLED ledNum s =
      ⟨Function.update s.ledStates (slot ledNum h)
          { s.ledStates (slot ledNum h) with isOn := true, blinkInterval := 0 },
        s.writes ++ [⟨pinAt (slot ledNum h), (s.ledStates (slot ledNum h)).brightness⟩]⟩ := by
  simp [turnOnLED, h, setIsOn, setBlinkInterval, ledcWrite]

/-- What `turnOffLED` does to the whole state when the range test passes. -/
theorem turnOffLED_valid (ledNum : Int) (h : 0 ≤ ledNum ∧ ledNum < (NUM_LEDS : Int)) (s : State) :
    turnOffLED ledNum s =
      ⟨Function.update s.ledStates (slot ledNum h)
          { s.ledStates (slot ledNum h) with isOn := false, blinkInterval := 0 },
        s.writes ++ [⟨pinAt (slot ledNum h), 0⟩]⟩ := by
  simp [turnOffLED, h, setIsOn, setBlinkInterval, ledcWrite]

theorem turnOnLED_invalid (ledNum : Int) (h : ¬ (0 ≤ ledNum ∧ ledNum < (NUM_LEDS : Int)))
    (s : State) : turnOnLED ledNum s = s := by
  simp [turnOnLED, h]

theorem turnOffLED_invalid (ledNum : Int) (h : ¬ (0 ≤ ledNum ∧ ledNum < (NUM_LEDS : Int)))
    (s : State) : turnOffLED ledNum s = s := by
  simp [turnOffLED, h]


theorem ofFn_eight {α : Type} (f : Fin 8 → α) :
    List.ofFn f = [f 0, f 1, f 2, f 3, f 4, f 5, f 6, f 7] := by
  simp only [List.ofFn_succ, List.ofFn_zero]
  rfl

/-- The whole effect of the registry loop of `setup`. -/
theorem setup_eq (s : State) :
    setup s =
      ⟨fun _ => ⟨false, 255, 0, 0, false⟩,
        s.writes ++ List.ofFn (fun i : Fin 8 => (⟨pinAt i, 0⟩ : HwWrite))⟩ := by
  unfold setup
  rw [forLEDs_unroll]
  apply State.eq_of_fields
  · funext j
    fin_cases j <;>
      simp [setIsOn, setBrightness, setBlinkInterval, setLastBlinkTime, setBlinkState,
        ledcWrite, Function.update]
  · rw [ofFn_eight]
    simp [setIsOn, setBrightness, setBlinkInterval, setLastBlinkTime, setBlinkState, ledcWrite]

theorem turnOnAllLEDs_eq (s : State) :
    turnOnAllLEDs s =
      ⟨fun i => { s.ledStates i with isOn := true, blinkInterval := 0 },
        s.writes ++ List.ofFn (fun i : Fin 8 => (⟨pinAt i, (s.ledStates i).brightness⟩ : HwWrite))⟩ := by
  unfold turnOnAllLEDs
  rw [forLEDs_unroll]
  apply State.eq_of_fields
  · funext j
    fin_cases j <;>
      simp [setIsOn, setBlinkInterval, ledcWrite, Function.update]
  · rw [ofFn_eight]
    simp [setIsOn, setBlinkInterval, ledcWrite]

theorem turnOffAllLEDs_eq (s : State) :
    turnOffAllLEDs s =
      ⟨fun i => { s.ledStates i with isOn := false, blinkInterval := 0 },
        s.writes ++ List.ofFn (fun i : Fin 8 => (⟨pinAt i, 0⟩ : HwWrite))⟩ := by
  unfold turnOffAllLEDs
  rw [forLEDs_unroll]
  apply State.eq_of_fields
  · funext j
    fin_cases j <;>
      simp [setIsOn, setBlinkInterval, ledcWrite, Function.update]
  · rw [ofFn_eight]
    simp [setIsOn, setBlinkInterval, ledcWrite]

theorem handleGetStatus_eq (s : State) :
    handleGetStatus s =
      (s, ⟨200, "application/json", Payload.leds (List.ofFn (fun i : Fin 8 =>
          [("isOn", JsonValue.bool (s.ledStates i).isOn),
           ("blinkInterval", JsonValue.num (s.ledStates i).blinkInterval)]))⟩) := by
  unfold handleGetStatus
  rw [forLEDs_unroll]
  rw [ofFn_eight]
  simp

/-- C1: for every index `i` with `0 ≤ i < 8` and every state `s`, after
`turnOnLED(i)` channel `i` has `isOn = true` and the brightness it had in `s`
(255 when `s` is the state left by `setup`), and after `turnOffLED(i)` channel
`i` has `isOn = false`. -/
theorem turnOnLED_turnOffLED_channel (i : Int) (h : 0 ≤ i ∧ i < (NUM_LEDS : Int))
    (s s0 : State) :
    ((turnOnLED i s).ledStates (slot i h)).isOn = true ∧
    ((turnOnLED i s).ledStates (slot i h)).brightness = (s.ledStates (slot i h)).brightness ∧
    ((turnOnLED i (setup s0)).ledStates (slot i h)).brightness = 255 ∧
    ((turnOffLED i s).ledStates (slot i h)).isOn = false := by
  rw [turnOnLED_valid i h, turnOnLED_valid i h, turnOffLED_valid i h, setup_eq]
  simp

theorem turnOnLED_turnOffLED_channel_witness :
    (0 ≤ (3 : Int) ∧ (3 : Int) < (NUM_LEDS : Int)) ∧
    ((turnOnLED 3 sampleState).ledStates 3).isOn = true ∧
    ((turnOnLED 3 sampleState).ledStates 3).brightness = 35 ∧
    ((turnOnLED 3 (setup sampleState)).ledStates 3).brightness = 255 ∧
    ((turnOffLED 3 sampleState).ledStates 3).isOn = false :=
  ⟨by decide, turnOnLED_turnOffLED_channel 3 (by decide) sampleState sampleState⟩


theorem slot_val (i : Int) (h : 0 ≤ i ∧ i < (NUM_LEDS : Int)) : (slot i h).val = i.toNat := rfl

/-- The `k`-th entry of the status document. -/
theorem statusEntries_getElem (s : State) (k : Fin 8) :
    (statusEntries (handleGetStatus s).2)[k.val]? =
      some [("isOn", JsonValue.bool (s.ledStates k).isOn),
            ("blinkInterval", JsonValue.num (s.ledStates k).blinkInterval)] := by
  rw [handleGetStatus_eq]
  show (List.ofFn _)[k.val]? = _
  rw [List.getElem?_ofFn]
  simp [List.ofFnNthVal]

theorem statusEntries_length (s : State) :
    (statusEntries (handleGetStatus s).2).length = 8 := by
  rw [handleGetStatus_eq]
  simp [statusEntries]

theorem statusEntries_mem (s : State) (e : JsonObject)
    (he : e ∈ statusEntries (handleGetStatus s).2) :
    ∃ k : Fin 8, e = [("isOn", JsonValue.bool (s.ledStates k).isOn),
            ("blinkInterval", JsonValue.num (s.ledStates k).blinkInterval)] := by
  rw [handleGetStatus_eq] at he
  simp only [statusEntries, List.mem_ofFn, Set.mem_range] at he
  obtain ⟨k, hk⟩ := he
  exact ⟨k, hk.symm⟩

/-- C2: from every state, `turnOnAllLEDs` leaves all 8 channels with
`isOn = true` and `turnOffAllLEDs` leaves all 8 with `isOn = false`; a POST to
the all-LEDs endpoint with action "off" (from the all-on state or any other)
answers 200 and the status document read afterwards has 8 entries, each with
`isOn = false`. -/
theorem all_on_all_off (s : State) :
    (∀ i : Fin 8, ((turnOnAllLEDs s).ledStates i).isOn = true) ∧
    (∀ i : Fin 8, ((turnOffAllLEDs s).ledStates i).isOn = false) ∧
    (handleAllLEDs (some ⟨"off"⟩) (turnOnAllLEDs s)).2.code = 200 ∧
    (statusEntries
      (handleGetStatus (handleAllLEDs (some ⟨"off"⟩) (turnOnAllLEDs s)).1).2).length = 8 ∧
    (∀ e ∈ statusEntries
        (handleGetStatus (handleAllLEDs (some ⟨"off"⟩) (turnOnAllLEDs s)).1).2,
      e.lookup "isOn" = some (JsonValue.bool false)) ∧
    (∀ e ∈ statusEntries (handleGetStatus (handleAllLEDs (some ⟨"off"⟩) s).1).2,
      e.lookup "isOn" = some (JsonValue.bool false)) := by
  have hoff : ∀ t : State, (handleAllLEDs (some ⟨"off"⟩) t).1 = turnOffAllLEDs t := by
    intro t
    simp [handleAllLEDs]
  refine ⟨?_, ?_, ?_, statusEntries_length _, ?_, ?_⟩
  · intro i
    rw [turnOnAllLEDs_eq]
  · intro i
    rw [turnOffAllLEDs_eq]
  · simp [handleAllLEDs]
  · intro e he
    obtain ⟨k, rfl⟩ := statusEntries_mem _ e he
    rw [hoff, turnOffAllLEDs_eq]
    simp [List.lookup]
  · intro e he
    obtain ⟨k, rfl⟩ := statusEntries_mem _ e he
    rw [hoff, turnOffAllLEDs_eq]
    simp [List.lookup]

/-- On a valid index the sketch's `setOne` and the worded one agree, in
outcome, table and trace. -/
theorem setOne_eq_setOneSpec_of_valid (i : Int) (h : 0 ≤ i ∧ i < (NUM_LEDS : Int))
    (turnOn : Bool) (s : State) : setOne i turnOn s = setOneSpec i turnOn s := by
  cases turnOn
  · simp [setOne, setOneSpec, h, turnOffLED_valid i h]
  · simp [setOne, setOneSpec, h, turnOnLED_valid i h]

/-- C3 as stated fails: with index -1 and with index 8 the sketch's `setOne`
(a call of the `void` function `turnOnLED`, or `turnOffLED`) completes and
hands back the unchanged state, where the worded `setOne` fails with
`OutOfRange`; no call ends in that error. -/
theorem setOne_out_of_range_completes :
    setOne (-1) true sampleState = Except.ok sampleState ∧
    setOne 8 true sampleState = Except.ok sampleState ∧
    setOne (-1) false sampleState = Except.ok sampleState ∧
    setOne 8 false sampleState = Except.ok sampleState ∧
    setOneSpec (-1) true sampleState = Except.error SetOneError.OutOfRange ∧
    setOneSpec 8 true sampleState = Except.error SetOneError.OutOfRange ∧
    setOne (-1) true sampleState ≠ Except.error SetOneError.OutOfRange ∧
    setOne 8 true sampleState ≠ Except.error SetOneError.OutOfRange ∧
    setOne (-1) true sampleState ≠ setOneSpec (-1) true sampleState ∧
    setOne 8 true sampleState ≠ setOneSpec 8 true sampleState := by
  have hm : ¬ (0 ≤ (-1 : Int) ∧ (-1 : Int) < (NUM_LEDS : Int)) := by decide
  have h8 : ¬ (0 ≤ (8 : Int) ∧ (8 : Int) < (NUM_LEDS : Int)) := by decide
  have sm : setOneSpec (-1) true sampleState = Except.error SetOneError.OutOfRange := by
    simp [setOneSpec]
  have s8 : setOneSpec 8 true sampleState = Except.error SetOneError.OutOfRange := by
    unfold setOneSpec
    rw [dif_neg h8]
  refine ⟨?_, ?_, ?_, ?_, sm, s8, ?_, ?_, ?_, ?_⟩
  · simp [setOne, turnOnLED_invalid _ hm]
  · simp [setOne, turnOnLED_invalid _ h8]
  · simp [setOne, turnOffLED_invalid _ hm]
  · simp [setOne, turnOffLED_invalid _ h8]
  · simp [setOne]
  · simp [setOne]
  · rw [sm]
    simp [setOne]
  · rw [s8]
    simp [setOne]

/-- C3 amended: for every integer index outside `[0, 8)` (so for -1 and for 8)
and either on/off value, `setOne` reports no error: the call of `turnOnLED` or
`turnOffLED` completes as a no-op that returns the state it was given, table
and hardware trace alike; the `OutOfRange` failure is reported by the
single-LED endpoint, which answers 400 with the error payload for an invalid
index, whatever the action and value are, again without touching the state. -/
theorem out_of_range_rejected (i : Int) (h : i < 0 ∨ (NUM_LEDS : Int) ≤ i) (s : State)
    (action : String) (value : Int) (turnOn : Bool) :
    setOne i turnOn s = Except.ok s ∧
    turnOnLED i s = s ∧ turnOffLED i s = s ∧
    handleLEDControl (some ⟨i, action, value⟩) s =
      (s, ⟨400, "application/json",
        Payload.text "\x7b\"error\":\"Invalid LED index\"\x7d"⟩) := by
  have hn : ¬ (0 ≤ i ∧ i < (NUM_LEDS : Int)) := by omega
  refine ⟨?_, turnOnLED_invalid i hn s, turnOffLED_invalid i hn s, ?_⟩
  · simp [setOne, turnOnLED_invalid i hn s, turnOffLED_invalid i hn s]
  · have hg : i < 0 ∨ i ≥ (NUM_LEDS : Int) := h
    simp [handleLEDControl, hg]

theorem out_of_range_rejected_witness :
    (((-1 : Int) < 0 ∨ (NUM_LEDS : Int) ≤ -1) ∧
      setOne (-1) true sampleState = Except.ok sampleState ∧
      turnOnLED (-1) sampleState = sampleState ∧ turnOffLED (-1) sampleState = sampleState ∧
      handleLEDControl (some ⟨-1, "on", 0⟩) sampleState =
        (sampleState, ⟨400, "application/json",
          Payload.text "\x7b\"error\":\"Invalid LED index\"\x7d"⟩)) ∧
    (((8 : Int) < 0 ∨ (NUM_LEDS : Int) ≤ 8) ∧
      setOne 8 false sampleState = Except.ok sampleState ∧
      turnOnLED 8 sampleState = sampleState ∧ turnOffLED 8 sampleState = sampleState ∧
      handleLEDControl (some ⟨8, "off", 0⟩) sampleState =
        (sampleState, ⟨400, "application/json",
          Payload.text "\x7b\"error\":\"Invalid LED index\"\x7d"⟩)) :=
  ⟨⟨by decide, out_of_range_rejected (-1) (by decide) sampleState "on" 0 true⟩,
   ⟨by decide, out_of_range_rejected 8 (by decide) sampleState "off" 0 false⟩⟩

/-- C4: from every state, a POST without a body to the single-LED endpoint or
to the all-LEDs endpoint is answered 400 with the payload
`{"error":"No body"}` and returns the state unchanged, table and hardware
trace alike. -/
theorem no_body_rejected (s : State) :
    handleLEDControl none s =
      (s, ⟨400, "application/json", Payload.text "\x7b\"error\":\"No body\"\x7d"⟩) ∧
    handleAllLEDs none s =
      (s, ⟨400, "application/json", Payload.text "\x7b\"error\":\"No body\"\x7d"⟩) :=
  ⟨rfl, rfl⟩

/-- C5: for every state and every action string other than "on" and "off",
the single-LED endpoint with a valid index and the all-LEDs endpoint both
answer 200 with `{"success":true}` and return the state unchanged, table and
hardware trace alike. -/
theorem unknown_action_ignored (action : String) (hon : action ≠ "on") (hoff : action ≠ "off")
    (i : Int) (h : 0 ≤ i ∧ i < (NUM_LEDS : Int)) (value : Int) (s : State) :
    handleLEDControl (some ⟨i, action, value⟩) s =
      (s, ⟨200, "application/json", Payload.text "\x7b\"success\":true\x7d"⟩) ∧
    handleAllLEDs (some ⟨action⟩) s =
      (s, ⟨200, "application/json", Payload.text "\x7b\"success\":true\x7d"⟩) := by
  have hg : ¬ (i < 0 ∨ i ≥ (NUM_LEDS : Int)) := by omega
  constructor
  · simp [handleLEDControl, hg, hon, hoff]
  · simp [handleAllLEDs, hon, hoff]

theorem unknown_action_ignored_witness :
    ("toggle" ≠ "on" ∧ "toggle" ≠ "off" ∧ (0 ≤ (5 : Int) ∧ (5 : Int) < (NUM_LEDS : Int))) ∧
    handleLEDControl (some ⟨5, "toggle", 0⟩) sampleState =
      (sampleState, ⟨200, "application/json", Payload.text "\x7b\"success\":true\x7d"⟩) ∧
    handleAllLEDs (some ⟨"toggle"⟩) sampleState =
      (sampleState, ⟨200, "application/json", Payload.text "\x7b\"success\":true\x7d"⟩) :=
  ⟨by decide, unknown_action_ignored "toggle" (by decide) (by decide) 5 (by decide) 0 sampleState⟩

/-- C6: for every valid index `i` and every state, a POST to the single-LED
endpoint with `led = i` and action "on" answers 200 with `{"success":true}`
and the status document read afterwards reports `isOn = true` in its `i`-th
entry; with action "off" the answer is the same and the entry reports
`isOn = false`. -/
theorem led_post_then_status (i : Int) (h : 0 ≤ i ∧ i < (NUM_LEDS : Int)) (value : Int)
    (s : State) :
    (handleLEDControl (some ⟨i, "on", value⟩) s).2 =
      ⟨200, "application/json", Payload.text "\x7b\"success\":true\x7d"⟩ ∧
    ((statusEntries (handleGetStatus (handleLEDControl (some ⟨i, "on", value⟩) s).1).2)[i.toNat]?
      ).bind (List.lookup "isOn") = some (JsonValue.bool true) ∧
    (handleLEDControl (some ⟨i, "off", value⟩) s).2 =
      ⟨200, "application/json", Payload.text "\x7b\"success\":true\x7d"⟩ ∧
    ((statusEntries (handleGetStatus (handleLEDControl (some ⟨i, "off", value⟩) s).1).2)[i.toNat]?
      ).bind (List.lookup "isOn") = some (JsonValue.bool false) := by
  have hg : ¬ (i < 0 ∨ i ≥ (NUM_LEDS : Int)) := by omega
  have hon : (handleLEDControl (some ⟨i, "on", value⟩) s).1 = turnOnLED i s := by
    simp [handleLEDControl, hg]
  have hoff : (handleLEDControl (some ⟨i, "off", value⟩) s).1 = turnOffLED i s := by
    simp [handleLEDControl, hg]
  have hk := slot_val i h
  refine ⟨?_, ?_, ?_, ?_⟩
  · simp [handleLEDControl, hg]
  · rw [hon, ← hk, statusEntries_getElem, turnOnLED_valid i h]
    simp [List.lookup]
  · simp [handleLEDControl, hg]
  · rw [hoff, ← hk, statusEntries_getElem, turnOffLED_valid i h]
    simp [List.lookup]

theorem led_post_then_status_witness :
    (0 ≤ (0 : Int) ∧ (0 : Int) < (NUM_LEDS : Int)) ∧
    (handleLEDControl (some ⟨0, "on", 0⟩) sampleState).2 =
      ⟨200, "application/json", Payload.text "\x7b\"success\":true\x7d"⟩ ∧
    ((statusEntries (handleGetStatus (handleLEDControl (some ⟨0, "on", 0⟩) sampleState).1).2)[0]?
      ).bind (List.lookup "isOn") = some (JsonValue.bool true) ∧
    (handleLEDControl (some ⟨0, "off", 0⟩) sampleState).2 =
      ⟨200, "application/json", Payload.text "\x7b\"success\":true\x7d"⟩ ∧
    ((statusEntries (handleGetStatus (handleLEDControl (some ⟨0, "off", 0⟩) sampleState).1).2)[0]?
      ).bind (List.lookup "isOn") = some (JsonValue.bool false) :=
  ⟨by decide, led_post_then_status 0 (by decide) 0 sampleState⟩

/-- C7 as stated fails: in the state left by `setup` channel 0 has brightness
255, while entry 0 of the status document is exactly
`{"isOn":false,"blinkInterval":0}`: it has no `brightness` member and none of
its members has the value 255. -/
theorem status_omits_brightness :
    ((setup sampleState).ledStates 0).brightness = 255 ∧
    (statusEntries (handleGetStatus (setup sampleState)).2)[0]? =
      some [("isOn", JsonValue.bool false), ("blinkInterval", JsonValue.num 0)] ∧
    ((statusEntries (handleGetStatus (setup sampleState)).2)[0]?).bind
      (List.lookup "brightness") = none := by
  have h0 := statusEntries_getElem (setup sampleState) 0
  have hs : (setup sampleState).ledStates 0 = ⟨false, 255, 0, 0, false⟩ := by
    rw [setup_eq]
  rw [hs] at h0
  refine ⟨by rw [hs], h0, ?_⟩
  have h1 : (statusEntries (handleGetStatus (setup sampleState)).2)[0]? =
      some [("isOn", JsonValue.bool false), ("blinkInterval", JsonValue.num 0)] := h0
  rw [h1]
  decide

/-- C7 amended: from every state the status endpoint answers 200 with a
document of exactly 8 entries, the `k`-th entry being the object with the
members `isOn` and `blinkInterval` of channel `k`, in that order, and it
returns the state unchanged, table and hardware trace alike. -/
theorem status_reports_isOn_blinkInterval (s : State) :
    (handleGetStatus s).1 = s ∧
    (handleGetStatus s).2.code = 200 ∧
    (handleGetStatus s).2.contentType = "application/json" ∧
    (statusEntries (handleGetStatus s).2).length = 8 ∧
    ∀ k : Fin 8, (statusEntries (handleGetStatus s).2)[k.val]? =
      some [("isOn", JsonValue.bool (s.ledStates k).isOn),
            ("blinkInterval", JsonValue.num (s.ledStates k).blinkInterval)] :=
  ⟨rfl, rfl, rfl, statusEntries_length s, statusEntries_getElem s⟩

/-! ## The write invariant -/

theorem lastWrite_append (pin : Int) (ws vs : List HwWrite) :
    lastWrite pin (ws ++ vs) =
      match lastWrite pin vs with
      | some d => some d
      | none => lastWrite pin ws := by
  induction ws with
  | nil => cases hv : lastWrite pin vs <;> simp [lastWrite, hv]
  | cons w ws ih =>
    show (match lastWrite pin (ws ++ vs) with
      | some d => some d
      | none => if w.pin = pin then some w.duty else none) = _
    rw [ih]
    cases hv : lastWrite pin vs <;> simp [lastWrite]

theorem lastWrite_append_one (pin : Int) (ws : List HwWrite) (w : HwWrite) :
    lastWrite pin (ws ++ [w]) = if w.pin = pin then some w.duty else lastWrite pin ws := by
  rw [lastWrite_append]
  by_cases hw : w.pin = pin <;> simp [lastWrite, hw]

/-- The pin table has no repeated entry. -/
theorem pinAt_injective (i j : Fin 8) (h : pinAt i = pinAt j) : i = j := by
  revert i j
  decide

theorem pinAt_values :
    pinAt 0 = 2 ∧ pinAt 1 = 4 ∧ pinAt 2 = 5 ∧ pinAt 3 = 18 ∧
    pinAt 4 = 19 ∧ pinAt 5 = 21 ∧ pinAt 6 = 22 ∧ pinAt 7 = 23 :=
  ⟨rfl, rfl, rfl, rfl, rfl, rfl, rfl, rfl⟩

/-- The last write to a channel's pin within one pass over all channels. -/
theorem lastWrite_pass (f : Fin 8 → Nat) (i : Fin 8) :
    lastWrite (pinAt i) (List.ofFn (fun k : Fin 8 => (⟨pinAt k, f k⟩ : HwWrite))) =
      some (f i) := by
  rw [ofFn_eight]
  obtain ⟨h0, h1, h2, h3, h4, h5, h6, h7⟩ := pinAt_values
  fin_cases i <;> simp [lastWrite, h0, h1, h2, h3, h4, h5, h6, h7]

theorem WriteInv_setup (s0 : State) : WriteInv (setup s0) := by
  intro i
  rw [setup_eq]
  refine ⟨rfl, ?_⟩
  simp only [lastWrite_append, lastWrite_pass]
  simp

theorem WriteInv_turnOnAllLEDs (s : State) (hs : WriteInv s) : WriteInv (turnOnAllLEDs s) := by
  intro i
  rw [turnOnAllLEDs_eq]
  refine ⟨(hs i).1, ?_⟩
  simp only [lastWrite_append, lastWrite_pass]
  simp [(hs i).1]

theorem WriteInv_turnOffAllLEDs (s : State) (hs : WriteInv s) : WriteInv (turnOffAllLEDs s) := by
  intro i
  rw [turnOffAllLEDs_eq]
  refine ⟨(hs i).1, ?_⟩
  simp only [lastWrite_append, lastWrite_pass]
  simp

theorem WriteInv_turnOnLED (ledNum : Int) (s : State) (hs : WriteInv s) :
    WriteInv (turnOnLED ledNum s) := by
  by_cases h : 0 ≤ ledNum ∧ ledNum < (NUM_LEDS : Int)
  · intro i
    rw [turnOnLED_valid ledNum h]
    by_cases hi : i = slot ledNum h
    · subst hi
      simp [lastWrite_append_one, (hs _).1]
    · have hp : ¬ pinAt (slot ledNum h) = pinAt i := fun hp => hi (pinAt_injective _ _ hp).symm
      simp [lastWrite_append_one, hp, Function.update_noteq hi, (hs i).1, (hs i).2]
  · rw [turnOnLED_invalid ledNum h]
    exact hs

theorem WriteInv_turnOffLED (ledNum : Int) (s : State) (hs : WriteInv s) :
    WriteInv (turnOffLED ledNum s) := by
  by_cases h : 0 ≤ ledNum ∧ ledNum < (NUM_LEDS : Int)
  · intro i
    rw [turnOffLED_valid ledNum h]
    by_cases hi : i = slot ledNum h
    · subst hi
      simp [lastWrite_append_one, (hs _).1]
    · have hp : ¬ pinAt (slot ledNum h) = pinAt i := fun hp => hi (pinAt_injective _ _ hp).symm
      simp [lastWrite_append_one, hp, Function.update_noteq hi, (hs i).1, (hs i).2]
  · rw [turnOffLED_invalid ledNum h]
    exact hs

theorem WriteInv_handleLEDControl (req : Option LedBody) (s : State) (hs : WriteInv s) :
    WriteInv (handleLEDControl req s).1 := by
  cases req with
  | none => exact hs
  | some doc =>
    simp only [handleLEDControl]
    split
    · exact hs
    · dsimp only
      split
      · exact WriteInv_turnOnLED _ s hs
      · split
        · exact WriteInv_turnOffLED _ s hs
        · exact hs

theorem WriteInv_handleAllLEDs (req : Option AllBody) (s : State) (hs : WriteInv s) :
    WriteInv (handleAllLEDs req s).1 := by
  cases req with
  | none => exact hs
  | some doc =>
    simp only [handleAllLEDs]
    split
    · exact WriteInv_turnOnAllLEDs s hs
    · split
      · exact WriteInv_turnOffAllLEDs s hs
      · exact hs

theorem WriteInv_of_reachable (s : State) (hr : Reachable s) : WriteInv s := by
  induction hr with
  | boot s0 => exact WriteInv_setup s0
  | turnOn ledNum _ ih => exact WriteInv_turnOnLED ledNum _ ih
  | turnOff ledNum _ ih => exact WriteInv_turnOffLED ledNum _ ih
  | allOn _ ih => exact WriteInv_turnOnAllLEDs _ ih
  | allOff _ ih => exact WriteInv_turnOffAllLEDs _ ih
  | getStatus _ ih => exact ih
  | ledControl req _ ih => exact WriteInv_handleLEDControl req _ ih
  | allLEDs req _ ih => exact WriteInv_handleAllLEDs req _ ih

/-- C8: in every state reachable from `setup` through the control operations
and the three API handlers, for every channel `i`, `isOn` is true exactly when
the last hardware write to `LED_PINS[i]` was the channel's brightness, and
`isOn` is false exactly when the last hardware write to `LED_PINS[i]` was 0. -/
theorem reachable_isOn_iff_last_write (s : State) (hr : Reachable s) (i : Fin 8) :
    ((s.ledStates i).isOn = true ↔
      lastWrite (pinAt i) s.writes = some (s.ledStates i).brightness) ∧
    ((s.ledStates i).isOn = false ↔ lastWrite (pinAt i) s.writes = some 0) := by
  obtain ⟨hb, hw⟩ := WriteInv_of_reachable s hr i
  rw [hw, hb]
  cases (s.ledStates i).isOn <;> simp

theorem reachable_isOn_iff_last_write_witness :
    Reachable (turnOffLED 6 (turnOnAllLEDs (setup sampleState))) ∧
    ((((turnOffLED 6 (turnOnAllLEDs (setup sampleState))).ledStates 6).isOn = true ↔
      lastWrite (pinAt 6) (turnOffLED 6 (turnOnAllLEDs (setup sampleState))).writes =
        some ((turnOffLED 6 (turnOnAllLEDs (setup sampleState))).ledStates 6).brightness) ∧
    (((turnOffLED 6 (turnOnAllLEDs (setup sampleState))).ledStates 6).isOn = false ↔
      lastWrite (pinAt 6) (turnOffLED 6 (turnOnAllLEDs (setup sampleState))).writes = some 0)) :=
  ⟨Reachable.turnOff 6 (Reachable.allOn (Reachable.boot sampleState)),
   reachable_isOn_iff_last_write _
     (Reachable.turnOff 6 (Reachable.allOn (Reachable.boot sampleState))) 6⟩

/-! ## Idempotence and the bulk operations as sequences -/

/-- With an index taken from the table, `turnOnLED` is the three statements
of its guarded block. -/
theorem turnOnLED_step (k : Fin 8) (st : State) :
    turnOnLED (k.val : Int) st =
      ledcWrite (pinAt k) ((setBlinkInterval k 0 (setIsOn k true st)).ledStates k).brightness
        (setBlinkInterval k 0 (setIsOn k true st)) := by
  have h : 0 ≤ (k.val : Int) ∧ (k.val : Int) < (NUM_LEDS : Int) := by
    have := k.isLt
    have hn : (NUM_LEDS : Int) = 8 := rfl
    omega
  have hk : slot (k.val : Int) h = k := Fin.ext (by simp [slot])
  unfold turnOnLED
  rw [dif_pos h, hk]

/-- With an index taken from the table, `turnOffLED` is the three statements
of its guarded block. -/
theorem turnOffLED_step (k : Fin 8) (st : State) :
    turnOffLED (k.val : Int) st =
      ledcWrite (pinAt k) 0 (setBlinkInterval k 0 (setIsOn k false st)) := by
  have h : 0 ≤ (k.val : Int) ∧ (k.val : Int) < (NUM_LEDS : Int) := by
    have := k.isLt
    have hn : (NUM_LEDS : Int) = 8 := rfl
    omega
  have hk : slot (k.val : Int) h = k := Fin.ext (by simp [slot])
  unfold turnOffLED
  rw [dif_pos h, hk]

/-- C9: for every integer index (valid or not) and every state, applying
`turnOnLED(i)` twice gives the same channel table as applying it once, and
likewise for `turnOffLED(i)`. -/
theorem turn_idempotent_on_table (i : Int) (s : State) :
    (turnOnLED i (turnOnLED i s)).ledStates = (turnOnLED i s).ledStates ∧
    (turnOffLED i (turnOffLED i s)).ledStates = (turnOffLED i s).ledStates := by
  by_cases h : 0 ≤ i ∧ i < (NUM_LEDS : Int)
  · constructor
    · rw [turnOnLED_valid i h, turnOnLED_valid i h]
      simp
    · rw [turnOffLED_valid i h, turnOffLED_valid i h]
      simp
  · constructor
    · rw [turnOnLED_invalid i h, turnOnLED_invalid i h]
    · rw [turnOffLED_invalid i h, turnOffLED_invalid i h]

/-- C10: from every state, `turnOnAllLEDs` gives the same state, channel
table and hardware trace alike, as `turnOnLED(0)`, ..., `turnOnLED(7)` called
in that order, and `turnOffAllLEDs` the same as `turnOffLED(0)`, ...,
`turnOffLED(7)`; each appends exactly 8 writes to the trace, one per channel
in index order on pins 2, 4, 5, 18, 19, 21, 22, 23, with the channel's
brightness when turning on and 0 when turning off. -/
theorem all_equals_sequence (s : State) :
    turnOnAllLEDs s =
      List.foldl (fun st (k : Int) => turnOnLED k st) s [0, 1, 2, 3, 4, 5, 6, 7] ∧
    turnOffAllLEDs s =
      List.foldl (fun st (k : Int) => turnOffLED k st) s [0, 1, 2, 3, 4, 5, 6, 7] ∧
    (turnOnAllLEDs s).writes = s.writes ++
      [⟨2, (s.ledStates 0).brightness⟩, ⟨4, (s.ledStates 1).brightness⟩,
       ⟨5, (s.ledStates 2).brightness⟩, ⟨18, (s.ledStates 3).brightness⟩,
       ⟨19, (s.ledStates 4).brightness⟩, ⟨21, (s.ledStates 5).brightness⟩,
       ⟨22, (s.ledStates 6).brightness⟩, ⟨23, (s.ledStates 7).brightness⟩] ∧
    (turnOffAllLEDs s).writes = s.writes ++
      [⟨2, 0⟩, ⟨4, 0⟩, ⟨5, 0⟩, ⟨18, 0⟩, ⟨19, 0⟩, ⟨21, 0⟩, ⟨22, 0⟩, ⟨23, 0⟩] := by
  obtain ⟨h0, h1, h2, h3, h4, h5, h6, h7⟩ := pinAt_values
  refine ⟨?_, ?_, ?_, ?_⟩
  · have u0 : ∀ st, turnOnLED 0 st = _ := turnOnLED_step 0
    have u1 : ∀ st, turnOnLED 1 st = _ := turnOnLED_step 1
    have u2 : ∀ st, turnOnLED 2 st = _ := turnOnLED_step 2
    have u3 : ∀ st, turnOnLED 3 st = _ := turnOnLED_step 3
    have u4 : ∀ st, turnOnLED 4 st = _ := turnOnLED_step 4
    have u5 : ∀ st, turnOnLED 5 st = _ := turnOnLED_step 5
    have u6 : ∀ st, turnOnLED 6 st = _ := turnOnLED_step 6
    have u7 : ∀ st, turnOnLED 7 st = _ := turnOnLED_step 7
    unfold turnOnAllLEDs
    rw [forLEDs_unroll]
    simp only [List.foldl]
    rw [u7, u6, u5, u4, u3, u2, u1, u0]
  · have u0 : ∀ st, turnOffLED 0 st = _ := turnOffLED_step 0
    have u1 : ∀ st, turnOffLED 1 st = _ := turnOffLED_step 1
    have u2 : ∀ st, turnOffLED 2 st = _ := turnOffLED_step 2
    have u3 : ∀ st, turnOffLED 3 st = _ := turnOffLED_step 3
    have u4 : ∀ st, turnOffLED 4 st = _ := turnOffLED_step 4
    have u5 : ∀ st, turnOffLED 5 st = _ := turnOffLED_step 5
    have u6 : ∀ st, turnOffLED 6 st = _ := turnOffLED_step 6
    have u7 : ∀ st, turnOffLED 7 st = _ := turnOffLED_step 7
    unfold turnOffAllLEDs
    rw [forLEDs_unroll]
    simp only [List.foldl]
    rw [u7, u6, u5, u4, u3, u2, u1, u0]
  · rw [turnOnAllLEDs_eq, ofFn_eight, h0, h1, h2, h3, h4, h5, h6, h7]
  · rw [turnOffAllLEDs_eq, ofFn_eight, h0, h1, h2, h3, h4, h5, h6, h7]

/-! ## Initialisation, the pin table, and the frame of the single operations -/

/-- C11: from any earlier contents of the table and of the trace, `setup`
leaves a registry of exactly 8 channels (`NUM_LEDS = 8` slots), every channel
with `isOn = false` and `brightness = 255` (and the blink fields cleared), and
the writes it issues are exactly one write of 0 to each channel's pin, in
index order, so the last write to every channel's pin is 0. -/
theorem setup_all_off (s : State) :
    NUM_LEDS = 8 ∧
    (List.ofFn (setup s).ledStates).length = 8 ∧
    (∀ i : Fin 8, ((setup s).ledStates i).isOn = false) ∧
    (∀ i : Fin 8, ((setup s).ledStates i).brightness = 255) ∧
    (∀ i : Fin 8, (setup s).ledStates i = ⟨false, 255, 0, 0, false⟩) ∧
    (setup s).writes = s.writes ++
      [⟨2, 0⟩, ⟨4, 0⟩, ⟨5, 0⟩, ⟨18, 0⟩, ⟨19, 0⟩, ⟨21, 0⟩, ⟨22, 0⟩, ⟨23, 0⟩] ∧
    (∀ i : Fin 8, lastWrite (pinAt i) (setup s).writes = some 0) := by
  obtain ⟨h0, h1, h2, h3, h4, h5, h6, h7⟩ := pinAt_values
  refine ⟨rfl, by simp, ?_, ?_, ?_, ?_, ?_⟩
  · intro i
    rw [setup_eq]
  · intro i
    rw [setup_eq]
  · intro i
    rw [setup_eq]
  · rw [setup_eq, ofFn_eight, h0, h1, h2, h3, h4, h5, h6, h7]
  · intro i
    rw [setup_eq, lastWrite_append, lastWrite_pass]

/-- C12: the pin table has no repeated entry (`LED_PINS[i] = LED_PINS[j]`
forces `i = j` for table indices), `NUM_LEDS` is 8, the declared length of
`ledStates`, and no operation on the registry changes the pin of a channel:
the pins live in the constant table, which no operation writes. -/
theorem pins_unique_and_fixed :
    Function.Injective pinAt ∧
    LED_PINS.Nodup ∧
    NUM_LEDS = 8 ∧
    LED_PINS.length = 8 ∧
    (∀ (op : Operation) (s : State) (i : Fin 8),
      (channel (op.run s) i).pin = (channel s i).pin) ∧
    (∀ (op : Operation) (s : State) (i : Fin 8), (channel (op.run s) i).pin = pinAt i) := by
  refine ⟨fun i j h => pinAt_injective i j h, by decide, rfl, rfl, ?_, ?_⟩
  · intro op s i
    rfl
  · intro op s i
    rfl

/-- C13: for every valid index `i`, every other channel `j` and every state,
`turnOnLED(i)` and `turnOffLED(i)` leave the whole record of channel `j` as it
was (so its `isOn`, `brightness` and `blinkInterval`), change the brightness
of no channel, channel `i` included, and append exactly one write to the
trace, addressed to `LED_PINS[i]`, with the brightness of channel `i` when
turning on and 0 when turning off. -/
theorem turn_frame (i : Int) (h : 0 ≤ i ∧ i < (NUM_LEDS : Int)) (s : State)
    (j : Fin 8) (hj : j ≠ slot i h) :
    (turnOnLED i s).ledStates j = s.ledStates j ∧
    (turnOffLED i s).ledStates j = s.ledStates j ∧
    (∀ k : Fin 8, ((turnOnLED i s).ledStates k).brightness = (s.ledStates k).brightness) ∧
    (∀ k : Fin 8, ((turnOffLED i s).ledStates k).brightness = (s.ledStates k).brightness) ∧
    (turnOnLED i s).writes =
      s.writes ++ [⟨pinAt (slot i h), (s.ledStates (slot i h)).brightness⟩] ∧
    (turnOffLED i s).writes = s.writes ++ [⟨pinAt (slot i h), 0⟩] := by
  rw [turnOnLED_valid i h, turnOffLED_valid i h]
  refine ⟨?_, ?_, ?_, ?_, rfl, rfl⟩
  · simp [Function.update_noteq hj]
  · simp [Function.update_noteq hj]
  · intro k
    by_cases hk : k = slot i h
    · subst hk
      simp
    · simp [Function.update_noteq hk]
  · intro k
    by_cases hk : k = slot i h
    · subst hk
      simp
    · simp [Function.update_noteq hk]

theorem turn_frame_witness :
    ((0 ≤ (3 : Int) ∧ (3 : Int) < (NUM_LEDS : Int)) ∧ (5 : Fin 8) ≠ 3) ∧
    (turnOnLED 3 sampleState).ledStates 5 = sampleState.ledStates 5 ∧
    (turnOffLED 3 sampleState).ledStates 5 = sampleState.ledStates 5 ∧
    (∀ k : Fin 8,
      ((turnOnLED 3 sampleState).ledStates k).brightness = (sampleState.ledStates k).brightness) ∧
    (∀ k : Fin 8,
      ((turnOffLED 3 sampleState).ledStates k).brightness = (sampleState.ledStates k).brightness) ∧
    (turnOnLED 3 sampleState).writes = [⟨2, 40⟩, ⟨18, 35⟩] ∧
    (turnOffLED 3 sampleState).writes = [⟨2, 40⟩, ⟨18, 0⟩] :=
  ⟨by decide, turn_frame 3 (by decide) sampleState 5 (by decide)⟩

end LedIot
